import Mathlib

/-!
Verification development for the waveform-acquisition module
`rfpy/utils.py` (functions `traceshift`, `parse_localdata_for_comp`,
`download_data`).

The embedding idealises float64 timestamps and sample values over `ℚ`
(the code only compares, adds and subtracts them), keeps IEEE NaN as an
explicit sample constructor, and represents the external collaborators
(obspy `read`, `Stream.merge`, `Stream.trim`, the FDSN client, detrend /
taper / resample) as oracle function parameters.  Uncaught Python
exceptions are modelled with an explicit `Except` error layer.  The
frequency-domain shift `traceshift` is embedded separately over `ℝ`/`ℂ`
with numpy's documented DFT conventions.
-/

namespace RfPy

/-- A float64 sample value: IEEE NaN, or a rational idealisation of a
finite float.  The code under study only tests samples for equality and
replaces them, so this idealisation is exact for its control flow. -/
inductive FVal where
  | nan : FVal
  | num : ℚ → FVal
deriving DecidableEq

/-- IEEE `==` on sample values as numpy's elementwise `==` and Python's
float `==` behave: NaN compares unequal to everything, itself included. -/
def feq : FVal → FVal → Bool
  | FVal.num p, FVal.num q => p == q
  | _, _ => false

/-- Models `numpy.isnan` on a single sample. -/
def FVal.isnan : FVal → Bool
  | FVal.nan => true
  | FVal.num _ => false

/-- An in-memory trace (obspy `Trace`) restricted to the fields the code
reads: the samples, `stats.starttime`, `stats.delta`,
`stats.sampling_rate`, and `stats.sac['user9']` (the SAC no-data sentinel
header, present on traces read from SAC files). -/
structure Trace where
  data : List FVal
  starttime : ℚ
  delta : ℚ
  samplingRate : ℚ
  user9 : FVal
deriving DecidableEq

/-- obspy `stats.npts`: the number of samples. -/
def Trace.npts (tr : Trace) : ℕ := tr.data.length

/-- obspy `stats.endtime`, derived as `starttime + (npts - 1) * delta`. -/
def Trace.endtime (tr : Trace) : ℚ :=
  tr.starttime + ((tr.npts : ℚ) - 1) * tr.delta

/-- obspy `Stream`: an ordered list of traces. -/
abbrev Stream := List Trace

/-- A `UTCDateTime` as the code consumes it: the absolute time in seconds
as a rational, together with the `strftime("%Y")` and `strftime("%j")`
labels, which the external obspy collaborator computes from it. -/
structure TimeSpec where
  t : ℚ
  year : String
  jday : String
deriving DecidableEq

/-- Station metadata from the StDb database: the fields the code reads. -/
structure StaSpec where
  network : String
  station : String
  channel : String
  location : List String
  altnet : List String
deriving DecidableEq

/-- An uncaught Python exception escaping the function under study. -/
inductive PyErr where
  | nameError : PyErr
  | indexError : PyErr
  | typeError : PyErr
  | collabError : PyErr
deriving DecidableEq

/-- The external collaborators, modelled as request-scoped oracles:
`readFile` is obspy `read(path)`; `mergeFn` is `Stream.merge(method=1,
interpolation_samples=-1, fill_value=-123456789)` (it may raise, e.g. on
incompatible calibration factors); `trimFn` is
`Stream.trim(starttime, endtime)`; `fetch loc channels` is
`client.get_waveforms(network, station, loc, channels, start, end+1)`;
`detrendTaper` is `detrend('demean').detrend('linear').taper(...)`;
`shiftTr` is the stream-level view of `traceshift` (whose numeric content
is embedded separately over `ℝ`); `resampleFn r` is `Stream.resample(r,
no_filter=False)`. -/
structure Collab where
  readFile : String → Stream
  mergeFn : Stream → Except Unit Stream
  trimFn : ℚ → ℚ → Stream → Except Unit Stream
  fetch : String → String → Except Unit Stream
  detrendTaper : Stream → Stream
  shiftTr : Trace → ℚ → Trace
  resampleFn : ℚ → Stream → Stream

/-- Fuel-indexed worker for the glob matcher.  Every recursive call
strictly decreases the combined length of pattern and candidate, so any
fuel above that sum is enough; the fuel only makes the recursion
structural. -/
def globMatchAux : ℕ → List Char → List Char → Bool
  | 0, _, _ => false
  | _ + 1, [], [] => true
  | _ + 1, [], _ :: _ => false
  | fuel + 1, '*' :: ps, [] => globMatchAux fuel ps []
  | fuel + 1, '*' :: ps, c :: cs =>
      globMatchAux fuel ps (c :: cs) || globMatchAux fuel ('*' :: ps) cs
  | _ + 1, _ :: _, [] => false
  | fuel + 1, p :: ps, c :: cs => p == c && globMatchAux fuel ps cs

/-- Models `fnmatch.fnmatch` for the patterns the code builds, which
contain only literal characters and `*` (matching any character sequence,
path separators included); POSIX `os.path.normcase` is the identity, so
matching is case-sensitive. -/
def globMatch (pat s : String) : Bool :=
  globMatchAux (pat.toList.length + s.toList.length + 1) pat.toList s.toList

/-- Models `fnmatch.filter(names, pattern)`: the names matching the
pattern, in their original order. -/
def fnfilter (stdata : List String) (pat : String) : List String :=
  stdata.filter (fun f => globMatch pat f)

/-- Python `str.upper()` on the ASCII identifiers the code handles
(network, station and channel codes, component letters, format tags). -/
def pyUpper (s : String) : String := String.mk (s.toList.map Char.toUpper)

/-- Python slicing `s[0:n]`: the first `n` characters (all of `s` when it
is shorter). -/
def pyTake (s : String) (n : ℕ) : String := String.mk (s.toList.take n)

instance {ε α : Type} [DecidableEq ε] [DecidableEq α] : DecidableEq (Except ε α) :=
  fun a b =>
    match a, b with
    | Except.ok x, Except.ok y =>
      if h : x = y then Decidable.isTrue (by rw [h])
      else Decidable.isFalse (by intro hc; cases hc; exact h rfl)
    | Except.error x, Except.error y =>
      if h : x = y then Decidable.isTrue (by rw [h])
      else Decidable.isFalse (by intro hc; cases hc; exact h rfl)
    | Except.ok _, Except.error _ => Decidable.isFalse (by intro hc; cases hc)
    | Except.error _, Except.ok _ => Decidable.isFalse (by intro hc; cases hc)

/-- Python `str.format` rendering of a `\x7bk:Ns\x7d` placeholder:
left-justify the string to minimum width `N`, padding with spaces (all
arguments the code passes are already at least that wide, so this is the
identity on them). -/
def pyPad (s : String) (w : ℕ) : String :=
  s ++ String.mk (List.replicate (w - s.length) ' ')

/-- Convention-A pattern, fully formatted: the source string
`*/\x7b0:4s\x7d.\x7b1:3s\x7d.\x7b2:s\x7d.\x7b3:s\x7d.*.\x7b4:2s\x7d\x7b5:1s\x7d.\x7b6:s\x7d`
with `.format(year, jday, net, station, chanpre, comp, dtype)` applied to
the whole of it (lines 141-146, 248-252, 286-291). -/
def patConvA (yr jd net stn pre comp dtype : String) : String :=
  "*/" ++ pyPad yr 4 ++ "." ++ pyPad jd 3 ++ "." ++ net ++ "." ++ stn ++ ".*." ++
    pyPad pre 2 ++ pyPad comp 1 ++ "." ++ dtype

/-- Convention-B pattern, fully formatted: the source string
`*/\x7b0:4s\x7d.\x7b1:3s\x7d.\x7b2:s\x7d.\x7b3:s\x7d.*.*\x7b4:1s\x7d.\x7b5:s\x7d`
with `.format(year, jday, net, station, comp, dtype)` applied to the whole
of it (lines 148-153, 254-259, 274-283, 314-323). -/
def patConvB (yr jd net stn comp dtype : String) : String :=
  "*/" ++ pyPad yr 4 ++ "." ++ pyPad jd 3 ++ "." ++ net ++ "." ++ stn ++ ".*.*" ++
    pyPad comp 1 ++ "." ++ dtype

/-- The broken Convention-A pattern of lines 156-166, 261-272 and 302-312:
the source concatenates two string literals and calls `.format` on the
second literal only, so the first half keeps
`*/\x7b0:4s\x7d.\x7b1:3s\x7d.\x7b2:s\x7d.\x7b3:s\x7d.*.` verbatim (the
braces become literal pattern characters, which `fnmatch` does not treat
specially) and of the seven format arguments only positions 4-6 (channel
prefix, component, dtype) appear in the result; in particular the
alternate network code, passed at position 2, is never substituted. -/
def patBrokenA (pre comp dtype : String) : String :=
  "*/\x7b0:4s\x7d.\x7b1:3s\x7d.\x7b2:s\x7d.\x7b3:s\x7d.*." ++
    pyPad pre 2 ++ pyPad comp 1 ++ "." ++ dtype

/-- The broken Convention-B pattern of lines 169-180 and 293-300: same
concatenation slip, keeping
`*/\x7b0:4s\x7d.\x7b1:3s\x7d.\x7b2:s\x7d.\x7b3:s\x7d.*.*` verbatim and
substituting only positions 4-5 (component, dtype) of the format
arguments. -/
def patBrokenB (comp dtype : String) : String :=
  "*/\x7b0:4s\x7d.\x7b1:3s\x7d.\x7b2:s\x7d.\x7b3:s\x7d.*.*" ++
    pyPad comp 1 ++ "." ++ dtype

/-- The single-day naming-convention cascade, lines 139-180: Convention A
with the primary network; else Convention B with the primary network; else
the concatenation-broken Convention-A pattern once per alternate network
(the pattern does not depend on the alternate network, see `patBrokenA`);
else the concatenation-broken Convention-B pattern once per alternate
network (the loop variable is unused even in the discarded format
arguments, which pass the primary network, lines 172-180). -/
def singleDayFiles (stdata : List String) (dtype : String) (sta : StaSpec)
    (styr stjd comp : String) : List String :=
  let t1 := fnfilter stdata (patConvA styr stjd (pyUpper sta.network)
    (pyUpper sta.station) (pyTake (pyUpper sta.channel) 2) (pyUpper comp) dtype)
  if t1.length = 0 then
    let t2 := fnfilter stdata (patConvB styr stjd (pyUpper sta.network)
      (pyUpper sta.station) (pyUpper comp) dtype)
    if t2.length = 0 then
      let t3 := (sta.altnet.map (fun _anet =>
        fnfilter stdata (patBrokenA (pyTake (pyUpper sta.channel) 2) (pyUpper comp)
          dtype))).flatten
      if t3.length = 0 then
        (sta.altnet.map (fun _anet =>
          fnfilter stdata (patBrokenB (pyUpper comp) dtype))).flatten
      else t3
    else t2
  else t1

/-- The day-1 cascade of the multi-day branch, lines 248-283: Convention A
(primary network, fully formatted); else Convention B (primary network,
fully formatted); else the concatenation-broken Convention-A pattern per
alternate network; else Convention B fully formatted per alternate network
(this last tier, lines 274-283, is a single string literal, so the
alternate network code is genuinely substituted). -/
def day1Files (stdata : List String) (dtype : String) (sta : StaSpec)
    (styr stjd comp : String) : List String :=
  let t1 := fnfilter stdata (patConvA styr stjd (pyUpper sta.network)
    (pyUpper sta.station) (pyTake (pyUpper sta.channel) 2) (pyUpper comp) dtype)
  if t1.length = 0 then
    let t2 := fnfilter stdata (patConvB styr stjd (pyUpper sta.network)
      (pyUpper sta.station) (pyUpper comp) dtype)
    if t2.length = 0 then
      let t3 := (sta.altnet.map (fun _anet =>
        fnfilter stdata (patBrokenA (pyTake (pyUpper sta.channel) 2) (pyUpper comp)
          dtype))).flatten
      if t3.length = 0 then
        (sta.altnet.map (fun anet =>
          fnfilter stdata (patConvB styr stjd (pyUpper anet) (pyUpper sta.station)
            (pyUpper comp) dtype))).flatten
      else t3
    else t2
  else t1

/-- The day-2 cascade of the multi-day branch, lines 286-323: Convention A
(primary network, fully formatted); else the concatenation-broken
Convention-B pattern (primary network, lines 293-300); else the
concatenation-broken Convention-A pattern per alternate network; else
Convention B fully formatted per alternate network (lines 314-323, a
single string literal, so the alternate network code is substituted). -/
def day2Files (stdata : List String) (dtype : String) (sta : StaSpec)
    (edyr edjd comp : String) : List String :=
  let t1 := fnfilter stdata (patConvA edyr edjd (pyUpper sta.network)
    (pyUpper sta.station) (pyTake (pyUpper sta.channel) 2) (pyUpper comp) dtype)
  if t1.length = 0 then
    let t2 := fnfilter stdata (patBrokenB (pyUpper comp) dtype)
    if t2.length = 0 then
      let t3 := (sta.altnet.map (fun _anet =>
        fnfilter stdata (patBrokenA (pyTake (pyUpper sta.channel) 2) (pyUpper comp)
          dtype))).flatten
      if t3.length = 0 then
        (sta.altnet.map (fun anet =>
          fnfilter stdata (patConvB edyr edjd (pyUpper anet) (pyUpper sta.station)
            (pyUpper comp) dtype))).flatten
      else t3
    else t2
  else t1

/-- Outcome of the contamination checks on one (trimmed) head trace. -/
inductive QC where
  | success : Trace → QC
  | skipNaN : QC
  | skipFill : QC
deriving DecidableEq

/-- Lines 209-215 (duplicated at 383-389): on a SAC trace whose `user9`
header is neither `0.0` nor `-12345.0`, every sample equal to it is
replaced by `ndval` (numpy mask assignment); otherwise the samples are
untouched. -/
def sentinelReplaced (dtype : String) (ndval : FVal) (tr : Trace) : List FVal :=
  if (pyUpper dtype) == "SAC" ∧ feq tr.user9 (FVal.num 0) = false ∧
      feq tr.user9 (FVal.num (-12345)) = false then
    tr.data.map (fun x => if feq x tr.user9 then ndval else x)
  else tr.data

/-- Lines 209-243 (duplicated at 383-420): after the sentinel
replacement, skip the trace if any sample is NaN, else if any sample
equals the MSEED merge fill value `-123456789`; otherwise the (possibly
rewritten) trace is accepted (the `eddt`/zero-value branch only prints a
diagnostic). -/
def qualityCheck (dtype : String) (ndval : FVal) (tr : Trace) : QC :=
  if (sentinelReplaced dtype ndval tr).any FVal.isnan then QC.skipNaN
  else if (sentinelReplaced dtype ndval tr).any
      (fun x => feq x (FVal.num (-123456789))) then QC.skipFill
  else QC.success { tr with data := sentinelReplaced dtype ndval tr }

/-- Lines 193-196, 335-338 and 343-346: when an MSEED read returned more
than one segment, merge them in place with the designated fill value; the
call sits outside any try/except, so an exception propagates. -/
def mseedPre (C : Collab) (dtype : String) (st : Stream) : Except PyErr Stream :=
  if (pyUpper dtype) == "MSEED" ∧ st.length > 1 then
    match C.mergeFn st with
    | Except.error _ => Except.error PyErr.collabError
    | Except.ok st' => Except.ok st'
  else Except.ok st

/-- One iteration of the single-day file loop, lines 188-243.  `Except.ok
none` means the loop moves to the next candidate file; `Except.ok (some
r)` means the function returns `r`. -/
def processFileSingle (C : Collab) (dtype : String) (start end_ : TimeSpec)
    (ndval : FVal) (sacfile : String) :
    Except PyErr (Option (Bool × Option Stream)) :=
  match mseedPre C dtype (C.readFile sacfile) with
  | Except.error e => Except.error e
  | Except.ok st =>
    if st.length ≠ 1 then Except.ok none
    else
      match st with
      | [] => Except.ok none
      | tr :: _ =>
        if tr.starttime ≤ start.t ∧ tr.endtime ≥ end_.t then
          match C.trimFn start.t end_.t st with
          | Except.error _ => Except.error PyErr.collabError
          | Except.ok st' =>
            match st' with
            | [] => Except.error PyErr.indexError
            | tr' :: rest' =>
              match qualityCheck dtype ndval tr' with
              | QC.success tr'' => Except.ok (some (false, some (tr'' :: rest')))
              | _ => Except.ok none
        else Except.ok none

/-- The single-day loop over candidate files (lines 188-243). -/
def singleLoop (C : Collab) (dtype : String) (start end_ : TimeSpec)
    (ndval : FVal) : List String → Except PyErr (Option (Bool × Option Stream))
  | [] => Except.ok none
  | f :: fs =>
    match processFileSingle C dtype start end_ ndval f with
    | Except.error e => Except.error e
    | Except.ok (some r) => Except.ok (some r)
    | Except.ok none => singleLoop C dtype start end_ ndval fs

/-- Line 402 of the source evaluates `(eddt1 or eddt2)`, but the
assignments of `eddt1` and `eddt2` (lines 351-362) are commented out, so
both names are unbound locals and the evaluation raises `NameError`
before anything after it on that path can run. -/
def eddt1or2 : Except PyErr Bool := Except.error PyErr.nameError

/-- Outcome of one day-1/day-2 pair attempt in the multi-day branch. -/
inductive PairOut where
  | success : Stream → PairOut
  | noOverlap : PairOut
  | notSingle : PairOut
  | notCover : PairOut
  | skipNaN : PairOut
  | skipFill : PairOut
  | caught : PairOut
deriving DecidableEq

/-- One day-1/day-2 pair of the multi-day merge, lines 348-430.  The head
accesses `st1[0]`/`st2[0]` on line 349 sit outside the `try`, so an empty
stream raises; everything from `st.merge` (line 369) to the success return
(line 420) sits inside the bare `try`/`except: pass` of lines 368-423, so
an exception there turns the pair into a silent failure (`caught`).  When
the contamination checks pass, line 402 evaluates the unbound
`eddt1`/`eddt2` (see `eddt1or2`), so the `NameError` is caught and the
success return on line 420 is unreachable. -/
def attemptPair (C : Collab) (dtype : String) (ndval : FVal)
    (start end_ : TimeSpec) (st1 st2 : Stream) : Except PyErr PairOut :=
  match st1, st2 with
  | [], _ => Except.error PyErr.indexError
  | _ :: _, [] => Except.error PyErr.indexError
  | t1 :: _, t2 :: _ =>
    if t1.endtime ≥ t2.starttime - t2.delta then
      let st := st1 ++ st2
      match C.mergeFn st with
      | Except.error _ => Except.ok PairOut.caught
      | Except.ok merged =>
        if merged.length ≠ 1 then Except.ok PairOut.notSingle
        else
          match merged with
          | [] => Except.ok PairOut.notSingle
          | trm :: _ =>
            if trm.starttime ≤ start.t ∧ trm.endtime ≥ end_.t then
              match C.trimFn start.t end_.t merged with
              | Except.error _ => Except.ok PairOut.caught
              | Except.ok st' =>
                match st' with
                | [] => Except.ok PairOut.caught
                | tr' :: rest' =>
                  match qualityCheck dtype ndval tr' with
                  | QC.skipNaN => Except.ok PairOut.skipNaN
                  | QC.skipFill => Except.ok PairOut.skipFill
                  | QC.success tr'' =>
                    match eddt1or2 with
                    | Except.error _ => Except.ok PairOut.caught
                    | Except.ok _ => Except.ok (PairOut.success (tr'' :: rest'))
            else Except.ok PairOut.notCover
    else Except.ok PairOut.noOverlap

/-- The inner (day-2) loop of the multi-day merge, lines 341-430. -/
def innerLoop (C : Collab) (dtype : String) (start end_ : TimeSpec)
    (ndval : FVal) (st1 : Stream) :
    List String → Except PyErr (Option (Bool × Option Stream))
  | [] => Except.ok none
  | f2 :: fs2 =>
    match mseedPre C dtype (C.readFile f2) with
    | Except.error e => Except.error e
    | Except.ok st2' =>
      match attemptPair C dtype ndval start end_ st1 st2' with
      | Except.error e => Except.error e
      | Except.ok (PairOut.success s) => Except.ok (some (false, some s))
      | Except.ok _ => innerLoop C dtype start end_ ndval st1 fs2

/-- The outer (day-1) loop of the multi-day merge, lines 333-430. -/
def outerLoop (C : Collab) (dtype : String) (start end_ : TimeSpec)
    (ndval : FVal) (lclfiles2 : List String) :
    List String → Except PyErr (Option (Bool × Option Stream))
  | [] => Except.ok none
  | f1 :: fs1 =>
    match mseedPre C dtype (C.readFile f1) with
    | Except.error e => Except.error e
    | Except.ok st1' =>
      match innerLoop C dtype start end_ ndval st1' lclfiles2 with
      | Except.error e => Except.error e
      | Except.ok (some r) => Except.ok (some r)
      | Except.ok none => outerLoop C dtype start end_ ndval lclfiles2 fs1

/-- The function `parse_localdata_for_comp` of `rfpy/utils.py`, lines
94-434: locate and vet local data for one component.  The branch on
`stjd == edjd` (line 139) compares the day-of-year labels only.  The
fall-through of both branches is the final `return erd, None` of lines
432-434 (`erd` stays `True` throughout; successes return a literal
`False`). -/
def parse_localdata_for_comp (C : Collab) (comp : String)
    (stdata : List String) (dtype : String) (sta : StaSpec)
    (start end_ : TimeSpec) (ndval : FVal) :
    Except PyErr (Bool × Option Stream) :=
  if start.jday == end_.jday then
    if (singleDayFiles stdata dtype sta start.year start.jday comp).length = 0 then
      Except.ok (true, none)
    else
      match singleLoop C dtype start end_ ndval
          (singleDayFiles stdata dtype sta start.year start.jday comp) with
      | Except.error e => Except.error e
      | Except.ok (some r) => Except.ok r
      | Except.ok none => Except.ok (true, none)
  else
    if (day1Files stdata dtype sta start.year start.jday comp).length = 0 ∧
        (day2Files stdata dtype sta end_.year end_.jday comp).length = 0 then
      Except.ok (true, none)
    else if (day1Files stdata dtype sta start.year start.jday comp).length > 0 ∧
        (day2Files stdata dtype sta end_.year end_.jday comp).length > 0 then
      match outerLoop C dtype start end_ ndval
          (day2Files stdata dtype sta end_.year end_.jday comp)
          (day1Files stdata dtype sta start.year start.jday comp) with
      | Except.error e => Except.error e
      | Except.ok (some r) => Except.ok r
      | Except.ok none => Except.ok (true, none)
    else Except.ok (true, none)

/-- One location-code attempt of the remote branch, lines 514-558: fetch
the ZNE channel triplet; if that raises or does not return exactly three
traces, fetch the Z12 triplet at the same location code; `none` models the
Python `st = None` left when neither attempt yields three traces. -/
def attemptLoc (C : Collab) (sta : StaSpec) (loc : String) : Option Stream :=
  let channelsZNE := (pyUpper sta.channel) ++ "Z," ++ (pyUpper sta.channel) ++ "N," ++
    (pyUpper sta.channel) ++ "E"
  match C.fetch loc channelsZNE with
  | Except.error _ => none
  | Except.ok st =>
    if st.length = 3 then some st
    else
      let channelsZ12 := (pyUpper sta.channel) ++ "Z," ++ (pyUpper sta.channel) ++ "1," ++
        (pyUpper sta.channel) ++ "2"
      match C.fetch loc channelsZ12 with
      | Except.error _ => none
      | Except.ok st2 => if st2.length = 3 then some st2 else none

/-- The location-code loop of lines 514-563.  The state models the Python
local `st`: `none` when it was never assigned.  Line 512 set `erd =
False`, nothing in the loop body reassigns it, and lines 560-563 are
`if not erd: break` — so with the `erd` the code actually passes the break
fires at the end of the first iteration, whatever the fetch produced. -/
def remoteLoop (C : Collab) (sta : StaSpec) (erd : Bool) :
    List String → Option (Option Stream) → Option (Option Stream)
  | [], stVar => stVar
  | loc :: rest, _ =>
    let stVar := some (attemptLoc C sta loc)
    if !erd then stVar
    else remoteLoop C sta erd rest stVar

/-- Lines 579-589: when not every trace already starts at the requested
window start, shift each trace by its own offset via `traceshift`
(represented at stream level by the `shiftTr` oracle). -/
def alignStep (C : Collab) (startT : ℚ) (st : Stream) : Stream :=
  if st.all (fun tr => tr.starttime == startT) then st
  else st.map (fun tr => C.shiftTr tr (tr.starttime - startT))

/-- Python `int()` on a float: truncation toward zero. -/
def pyInt (q : ℚ) : ℤ := if 0 ≤ q then Int.floor q else Int.ceil q

/-- Models `np.allclose(xs, ref)` at the default tolerances
(`rtol = 1e-5`, `atol = 1e-8`): every element is within
`atol + rtol * |ref|` of `ref`. -/
def allcloseDefault (xs : List ℚ) (ref : ℚ) : Prop :=
  ∀ x ∈ xs, |x - ref| ≤ 1 / 100000000 + |ref| / 100000

instance (xs : List ℚ) (ref : ℚ) : Decidable (allcloseDefault xs ref) :=
  List.decidableBAll _ xs

/-- Models `np.allclose([n], target, atol=1)` (`rtol` keeps its default
`1e-5`): `|n - target| ≤ 1 + 1e-5 * |target|`. -/
def allcloseTarget (n target : ℚ) : Prop :=
  |n - target| ≤ 1 + |target| / 100000

instance (n target : ℚ) : Decidable (allcloseTarget n target) := by
  unfold allcloseTarget
  infer_instance

/-- The final length checks and returns of `download_data`, lines 608-630:
require `np.allclose` of the tail sample counts against the head count
(default tolerances), then `np.allclose` of the head count against
`int((end - start) * sr)` with `atol=1`; only then return the stream with
the success flag. -/
def finalCheckReturn (sr : ℚ) (start end_ : TimeSpec) (st4 : Stream) :
    Except PyErr (Bool × Option Stream) :=
  match st4 with
  | [] => Except.error PyErr.indexError
  | u0 :: rest =>
    if ¬ allcloseDefault (rest.map (fun tr => (tr.npts : ℚ))) (u0.npts : ℚ) then
      Except.ok (true, none)
    else if ¬ allcloseTarget (u0.npts : ℚ) ((pyInt ((end_.t - start.t) * sr) : ℚ)) then
      Except.ok (true, none)
    else Except.ok (false, some st4)

/-- Lines 591-630 of `download_data`, starting from the point where the
sampling rate `sr` has been read from `st[0]` (line 592): round the rate
with `floor_decimal(sr, 0)` and resample when it was not an integer; trim
inside a try/except whose handler returns the failure pair; then run the
final length checks (`finalCheckReturn`).  Note the length target uses the
`sr` read before any resampling. -/
def validateRate (C : Collab) (sr : ℚ) (start end_ : TimeSpec) (st2 : Stream) :
    Except PyErr (Bool × Option Stream) :=
  match C.trimFn start.t end_.t
      (if sr ≠ ((Int.floor sr : ℤ) : ℚ) then
        C.resampleFn ((Int.floor sr : ℤ) : ℚ) st2
      else st2) with
  | Except.error _ => Except.ok (true, none)
  | Except.ok st4 => finalCheckReturn sr start end_ st4

/-- The validation phase of `download_data`, lines 571-630: detrend and
taper (external), align start times (lines 579-589), then read
`st[0].stats.sampling_rate` (an `IndexError` on an empty stream) and
continue in `validateRate`. -/
def validate (C : Collab) (start end_ : TimeSpec) (st0 : Stream) :
    Except PyErr (Bool × Option Stream) :=
  match alignStep C start.t (C.detrendTaper st0) with
  | [] => Except.error PyErr.indexError
  | t0 :: rest => validateRate C t0.samplingRate start end_ (t0 :: rest)

/-- The local branch of `download_data`, lines 487-508: when local data
paths exist, resolve Z, N and E independently; the Python local `st` is
bound (`some`) only when all three succeeded, `none` models it staying
unassigned. -/
def localStep (C : Collab) (sta : StaSpec) (start end_ : TimeSpec)
    (stdata : List String) (dtype : String) (ndval : FVal) :
    Except PyErr (Bool × Option (Option Stream)) :=
  if stdata.length > 0 then
    match parse_localdata_for_comp C "Z" stdata dtype sta start end_ ndval with
    | Except.error e => Except.error e
    | Except.ok (errZ, stZ) =>
      match parse_localdata_for_comp C "N" stdata dtype sta start end_ ndval with
      | Except.error e => Except.error e
      | Except.ok (errN, stN) =>
        match parse_localdata_for_comp C "E" stdata dtype sta start end_ ndval with
        | Except.error e => Except.error e
        | Except.ok (errE, stE) =>
          if (errZ || errN || errE) = false then
            match stZ, stN, stE with
            | some a, some b, some c => Except.ok (false, some (some (a ++ b ++ c)))
            | _, _, _ => Except.error PyErr.typeError
          else Except.ok (true, none)
  else Except.ok (true, none)

/-- The function `download_data` of `rfpy/utils.py`, lines 437-630: the
local step, then the remote location loop when the local step failed or
was skipped, then the read of the Python local `st` on line 566 (which
raises `UnboundLocalError`, a `NameError`, when neither branch assigned
it — in particular when both `stdata` and `sta.location` are empty),
then validation. -/
def download_data (C : Collab) (sta : StaSpec) (start end_ : TimeSpec)
    (stdata : List String) (dtype : String) (ndval : FVal) :
    Except PyErr (Bool × Option Stream) :=
  match localStep C sta start end_ stdata dtype ndval with
  | Except.error e => Except.error e
  | Except.ok (erd, stVar0) =>
    match (if erd then remoteLoop C sta false sta.location stVar0 else stVar0) with
    | none => Except.error PyErr.nameError
    | some none => Except.ok (true, none)
    | some (some st) => validate C start end_ st

/-- Index part of numpy `fft.fftfreq(n, d)`: the frequency of bin `i` is
`freqIdx n i / (n * d)`, where the first `⌈n/2⌉` bins carry `0, 1, ...`
and the remaining bins carry `i - n` (the negative frequencies). -/
def freqIdx (n i : ℕ) : ℤ := if 2 * i < n then (i : ℤ) else (i : ℤ) - (n : ℤ)

/-- numpy `fft.fftfreq(n, d)` evaluated at bin `i`. -/
noncomputable def freqVal (n : ℕ) (dt : ℝ) (i : ℕ) : ℝ :=
  (freqIdx n i : ℝ) / ((n : ℝ) * dt)

/-- The complex exponential `exp(2 π i d / n · I)` used by the DFT
formulas, with an integer exponent `d` so that forward and inverse
kernels and their conjugates are all instances of one definition. -/
noncomputable def ec (n : ℕ) (d : ℤ) : ℂ :=
  Complex.exp (((2 * Real.pi * (d : ℝ) / (n : ℝ) : ℝ) : ℂ) * Complex.I)

/-- Models numpy `fft.fft` by its documented formula:
`A_k = Σ_m a_m exp(-2 π i m k / n)`. -/
noncomputable def dft (n : ℕ) (x : ℕ → ℂ) (k : ℕ) : ℂ :=
  ∑ m ∈ Finset.range n, x m * ec n (-((m : ℤ) * (k : ℤ)))

/-- Models numpy `fft.ifft` by its documented formula:
`a_m = (1/n) Σ_k A_k exp(2 π i m k / n)`. -/
noncomputable def idft (n : ℕ) (X : ℕ → ℂ) (m : ℕ) : ℂ :=
  (∑ k ∈ Finset.range n, X k * ec n ((m : ℤ) * (k : ℤ))) / (n : ℂ)

/-- The per-bin factor `np.exp(-2.*np.pi*1j*freq[i]*tt)` of line 29. -/
noncomputable def phase (n : ℕ) (dt t : ℝ) (i : ℕ) : ℂ :=
  Complex.exp (((-(2 * Real.pi * freqVal n dt i * t) : ℝ) : ℂ) * Complex.I)

/-- A trace as `traceshift` sees it: real samples, a start time and a
sample interval (both real numbers here, since the shift is a real-number
computation). -/
structure RTrace where
  data : List ℝ
  starttime : ℝ
  delta : ℝ

/-- The function `traceshift` of `rfpy/utils.py`, lines 13-38: forward
FFT of the samples, multiplication of bin `i` by
`exp(-2 π i · freq[i] · tt)`, inverse FFT keeping the real part, and a
start time moved back by `tt`.  `nt` and `dt` are `npts` and `delta` of
the input; sample `m` is read with a default of `0`, which the sums over
`range nt` never use. -/
noncomputable def traceshift (tr : RTrace) (tt : ℝ) : RTrace :=
  let nt := tr.data.length
  let dt := tr.delta
  let x : ℕ → ℂ := fun m => ((tr.data.getD m 0 : ℝ) : ℂ)
  let ftrace : ℕ → ℂ := dft nt x
  let shifted : ℕ → ℂ := fun i => ftrace i * phase nt dt tt i
  { data := (List.range nt).map (fun j => (idft nt shifted j).re)
    starttime := tr.starttime - tt
    delta := tr.delta }

/-- Modelled from the spec: Convention A re-applied to an alternate
network alias (spec section 6 lists the naming-convention globs as a
documented contract, re-applied per alternate network alias).  This is
the pattern the code's alternate-network tier was meant to build; it is
declared only to compare against what the code actually builds. -/
def specAltNetPatternA (yr jd anet stn pre comp dtype : String) : String :=
  "*/" ++ yr ++ "." ++ jd ++ "." ++ anet ++ "." ++ stn ++ ".*." ++
    pre ++ comp ++ "." ++ dtype

/-- Collaborator oracles for concrete runs: reads yield nothing, merges
and trims are the identity, the remote fetcher raises, detrend / shift /
resample leave the stream alone. -/
def trivCollab : Collab where
  readFile := fun _ => []
  mergeFn := fun s => Except.ok s
  trimFn := fun _ _ s => Except.ok s
  fetch := fun _ _ => Except.error ()
  detrendTaper := fun s => s
  shiftTr := fun tr _ => tr
  resampleFn := fun _ s => s

/-- A clean trace of `n` zero samples at 1 Hz starting at time 0. -/
def trBig (n : ℕ) : Trace :=
  { data := List.replicate n (FVal.num 0), starttime := 0, delta := 1,
    samplingRate := 1, user9 := FVal.num 0 }

/-- Window start `t = 0` on day label 2020-001. -/
def ts0 : TimeSpec := { t := 0, year := "2020", jday := "001" }

/-- Window end `t = 10` on the same day label. -/
def ts10 : TimeSpec := { t := 10, year := "2020", jday := "001" }

/-- Remote fetcher for the C1 scenario: the call at location "00" raises,
any other location returns three ZNE traces. -/
def fetchC1 : String → String → Except Unit Stream :=
  fun loc _channels =>
    if loc == "00" then Except.error ()
    else Except.ok [trBig 10, trBig 10, trBig 10]

def collabC1 : Collab := { trivCollab with fetch := fetchC1 }

/-- Station with two location codes to try, "00" then "10". -/
def staC1 : StaSpec :=
  { network := "XX", station := "STN", channel := "BH",
    location := ["00", "10"], altnet := [] }

/-- The same station offering only the location code "10". -/
def staC1b : StaSpec := { staC1 with location := ["10"] }

/-- Station with no location codes and no alternate networks. -/
def staEmpty : StaSpec :=
  { network := "XX", station := "STN", channel := "BH",
    location := [], altnet := [] }

/-- Day-1 and day-2 local files of the multi-day scenario. -/
def fileD1 : String := "/d/2020.001.XX.STN.00.BHZ.SAC"

def fileD2 : String := "/d/2020.002.XX.STN.00.BHZ.SAC"

def stdataC2 : List String := [fileD1, fileD2]

/-- Day-1 trace: two samples at 1 Hz, `0 ≤ t ≤ 1`. -/
def trD1 : Trace :=
  { data := [FVal.num 0, FVal.num 1], starttime := 0, delta := 1,
    samplingRate := 1, user9 := FVal.num 0 }

/-- Day-2 trace: two samples starting exactly one sample interval after
the day-1 trace ends. -/
def trD2 : Trace :=
  { data := [FVal.num 2, FVal.num 3], starttime := 2, delta := 1,
    samplingRate := 1, user9 := FVal.num 0 }

/-- The clean merge of `trD1` and `trD2`. -/
def trD12 : Trace :=
  { data := [FVal.num 0, FVal.num 1, FVal.num 2, FVal.num 3],
    starttime := 0, delta := 1, samplingRate := 1, user9 := FVal.num 0 }

/-- Collaborators for the multi-day scenario: the two day files read as
their traces and the merge produces the clean single-trace stream. -/
def collabC2 : Collab :=
  { trivCollab with
    readFile := fun p => if p == fileD1 then [trD1] else [trD2]
    mergeFn := fun _ => Except.ok [trD12] }

/-- Window start on day label 2020-001. -/
def tsD1 : TimeSpec := { t := 0, year := "2020", jday := "001" }

/-- Window end `t = 3` on day label 2020-002. -/
def tsD2 : TimeSpec := { t := 3, year := "2020", jday := "002" }

/-- A local file archived under the alternate network PO. -/
def fileC3 : String := "/d/2020.001.PO.STN.00.BHZ.SAC"

def stdataC3 : List String := [fileC3]

/-- Station whose primary network is CN with alternate network PO. -/
def staC3 : StaSpec :=
  { network := "CN", station := "STN", channel := "BH",
    location := [], altnet := ["PO"] }

/-- One-sample trace ending at time 0 (endtime = starttime here). -/
def trP1 : Trace :=
  { data := [FVal.num 0], starttime := 0, delta := 1,
    samplingRate := 1, user9 := FVal.num 0 }

/-- One-sample day-2 trace starting exactly one sample interval after
`trP1` ends. -/
def trP2close : Trace := { trP1 with starttime := 1 }

/-- One-sample day-2 trace starting two sample intervals after `trP1`
ends. -/
def trP2far : Trace := { trP1 with starttime := 2 }

/-- A SAC trace whose `user9` sentinel is 7 and whose first sample equals
the sentinel. -/
def trC5 : Trace :=
  { data := [FVal.num 7, FVal.num 1], starttime := 0, delta := 1,
    samplingRate := 1, user9 := FVal.num 7 }

/-- The accepted bundle of the C8 counterexample: sample counts 100000,
100001, 100001. -/
def stC8 : Stream := [trBig 100000, trBig 100001, trBig 100001]

/-- Remote fetcher returning the C8 bundle at every location. -/
def collabC8 : Collab := { trivCollab with fetch := fun _ _ => Except.ok stC8 }

/-- Window end `t = 100001.9`: the length target is
`int(100001.9) = 100001`, while `round(100001.9) = 100002`. -/
def tsC8end : TimeSpec := { t := 1000019 / 10, year := "2020", jday := "001" }

/-- Two-sample series for the `traceshift` counterexample. -/
def trX2 : RTrace := { data := [1, -1], starttime := 0, delta := 1 }

/-- One-sample (odd-length) series for the round-trip witness. -/
def trX1 : RTrace := { data := [1], starttime := 0, delta := 1 }

lemma attemptPair_then_ne_noOverlap (C : Collab) (dtype : String) (ndval : FVal)
    (start end_ : TimeSpec) (t1 t2 : Trace) (r1 r2 : List Trace)
    (hge : t1.endtime ≥ t2.starttime - t2.delta) :
    attemptPair C dtype ndval start end_ (t1 :: r1) (t2 :: r2) ≠
      Except.ok PairOut.noOverlap := by
  simp only [attemptPair]
  rw [if_pos hge]
  intro h
  repeat' split at h
  all_goals simp_all [eddt1or2]

lemma attemptPair_not_then_noOverlap (C : Collab) (dtype : String) (ndval : FVal)
    (start end_ : TimeSpec) (t1 t2 : Trace) (r1 r2 : List Trace)
    (hlt : ¬ t1.endtime ≥ t2.starttime - t2.delta) :
    attemptPair C dtype ndval start end_ (t1 :: r1) (t2 :: r2) =
      Except.ok PairOut.noOverlap := by
  simp only [attemptPair]
  rw [if_neg hlt]

lemma attemptPair_no_success (C : Collab) (dtype : String) (ndval : FVal)
    (start end_ : TimeSpec) (st1 st2 : Stream) (r : PairOut)
    (h : attemptPair C dtype ndval start end_ st1 st2 = Except.ok r)
    (s : Stream) : r ≠ PairOut.success s := by
  unfold attemptPair at h
  simp only [eddt1or2] at h
  repeat' split at h
  all_goals try simp_all
  all_goals
    intro hc
    subst hc
    exact absurd h (by simp)

lemma attemptPair_ne_ok_success (C : Collab) (dtype : String) (ndval : FVal)
    (start end_ : TimeSpec) (st1 st2 : Stream) (s : Stream) :
    attemptPair C dtype ndval start end_ st1 st2 ≠
      Except.ok (PairOut.success s) := fun h =>
  absurd rfl (attemptPair_no_success C dtype ndval start end_ st1 st2 _ h s)

lemma innerLoop_ok_none (C : Collab) (dtype : String) (start end_ : TimeSpec)
    (ndval : FVal) (st1 : Stream) (fs : List String)
    (r : Option (Bool × Option Stream))
    (h : innerLoop C dtype start end_ ndval st1 fs = Except.ok r) : r = none := by
  induction fs with
  | nil =>
    unfold innerLoop at h
    exact (Except.ok.inj h).symm
  | cons f2 fs2 ih =>
    unfold innerLoop at h
    split at h
    · exact absurd h (by simp)
    · split at h
      · exact absurd h (by simp)
      · simp_all [attemptPair_ne_ok_success]
      · exact ih h

lemma outerLoop_ok_none (C : Collab) (dtype : String) (start end_ : TimeSpec)
    (ndval : FVal) (lclfiles2 : List String) (fs : List String)
    (r : Option (Bool × Option Stream))
    (h : outerLoop C dtype start end_ ndval lclfiles2 fs = Except.ok r) : r = none := by
  induction fs with
  | nil =>
    unfold outerLoop at h
    exact (Except.ok.inj h).symm
  | cons f1 fs1 ih =>
    unfold outerLoop at h
    split at h
    · exact absurd h (by simp)
    · split at h
      · exact absurd h (by simp)
      · rename_i heq
        have := innerLoop_ok_none C dtype start end_ ndval _ _ _ heq
        simp_all
      · exact ih h

lemma processFileSingle_ok_shape (C : Collab) (dtype : String)
    (start end_ : TimeSpec) (ndval : FVal) (f : String)
    (r : Option (Bool × Option Stream))
    (h : processFileSingle C dtype start end_ ndval f = Except.ok r) :
    r = none ∨ ∃ stm : Stream, r = some (false, some stm) := by
  unfold processFileSingle at h
  repeat' split at h
  all_goals try simp_all
  all_goals
    subst h
    exact Or.inr ⟨_, rfl⟩

lemma singleLoop_ok_shape (C : Collab) (dtype : String) (start end_ : TimeSpec)
    (ndval : FVal) (fs : List String) (r : Option (Bool × Option Stream))
    (h : singleLoop C dtype start end_ ndval fs = Except.ok r) :
    r = none ∨ ∃ stm : Stream, r = some (false, some stm) := by
  induction fs with
  | nil => simp_all [singleLoop]
  | cons f fs' ih =>
    unfold singleLoop at h
    split at h
    · exact absurd h (by simp)
    · rename_i heq
      have := processFileSingle_ok_shape C dtype start end_ ndval f _ heq
      simp_all
    · exact ih h

lemma parse_ok_shape (C : Collab) (comp : String) (stdata : List String)
    (dtype : String) (sta : StaSpec) (start end_ : TimeSpec) (ndval : FVal)
    (b : Bool) (s : Option Stream)
    (h : parse_localdata_for_comp C comp stdata dtype sta start end_ ndval =
      Except.ok (b, s)) :
    (b = true ∧ s = none) ∨ (b = false ∧ ∃ stm : Stream, s = some stm) := by
  unfold parse_localdata_for_comp at h
  split at h
  · split at h
    · simp_all
    · split at h
      · exact absurd h (by simp)
      · rename_i heq
        have := singleLoop_ok_shape C dtype start end_ ndval _ _ heq
        rcases this with h1 | ⟨stm, h2⟩ <;> simp_all
      · simp_all
  · split at h
    · simp_all
    · split at h
      · split at h
        · exact absurd h (by simp)
        · rename_i heq
          have := outerLoop_ok_none C dtype start end_ ndval _ _ _ heq
          simp_all
        · simp_all
      · simp_all

lemma parse_multiday_ok (C : Collab) (comp : String) (stdata : List String)
    (dtype : String) (sta : StaSpec) (start end_ : TimeSpec) (ndval : FVal)
    (b : Bool) (s : Option Stream) (hday : start.jday ≠ end_.jday)
    (h : parse_localdata_for_comp C comp stdata dtype sta start end_ ndval =
      Except.ok (b, s)) : b = true ∧ s = none := by
  unfold parse_localdata_for_comp at h
  rw [if_neg (by simpa using hday)] at h
  split at h
  · simp_all
  · split at h
    · split at h
      · exact absurd h (by simp)
      · rename_i heq
        have := outerLoop_ok_none C dtype start end_ ndval _ _ _ heq
        simp_all
      · simp_all
    · simp_all

/-- Claim C7: for every input trace and every delay `tt`, `traceshift`
returns a series with exactly the same number of samples, its start
timestamp is the input start minus `tt` (so with `tt = starttime −
targetStart` the new start is exactly `targetStart`), and no bound on
`tt` is assumed: the statement quantifies over every real delay. -/
theorem c7_traceshift_length_and_start (tr : RTrace) (tt : ℝ) :
    (traceshift tr tt).data.length = tr.data.length ∧
      (traceshift tr tt).starttime = tr.starttime - tt ∧
      ∀ s : ℝ, (traceshift tr (tr.starttime - s)).starttime = s := by
  refine ⟨?_, rfl, fun s => ?_⟩
  · simp [traceshift]
  · show tr.starttime - (tr.starttime - s) = s
    ring

/-- Claim C9 (code bug): with an empty local-data path list and an empty
station location-code list, `download_data` does not return a status
pair: the Python local `st` is never assigned, so the read on line 566
raises `UnboundLocalError` (an uncaught `NameError`), whatever the
collaborators and the remaining inputs are. -/
theorem c9_empty_sources_uncaught_exception (C : Collab) (sta : StaSpec)
    (start end_ : TimeSpec) (dtype : String) (ndval : FVal)
    (hloc : sta.location = []) :
    download_data C sta start end_ [] dtype ndval =
      Except.error PyErr.nameError := by
  unfold download_data localStep
  rw [hloc]
  rfl

/-- Witness for C9: the crash at the concrete empty-sources input. -/
theorem c9_empty_sources_witness :
    staEmpty.location = [] ∧
      download_data trivCollab staEmpty ts0 ts10 [] "SAC" FVal.nan =
        Except.error PyErr.nameError :=
  ⟨rfl, c9_empty_sources_uncaught_exception trivCollab staEmpty ts0 ts10 "SAC"
    FVal.nan rfl⟩

/-- Claim C4: for every day-1/day-2 pair of the multi-day merge, the pair
enters the merge attempt (its outcome is not the no-overlap failure)
exactly when the day-1 end time is at least the day-2 start time minus
one sample interval of the day-2 trace; in particular a pair whose day-1
trace ends exactly one sample interval before the day-2 start is merged
rather than classified as no-overlap, and a pair with a two-interval gap
is classified as the no-overlap merge failure. -/
theorem c4_merge_contiguity_boundary :
    (∀ (C : Collab) (dtype : String) (ndval : FVal) (start end_ : TimeSpec)
        (t1 t2 : Trace) (r1 r2 : List Trace),
      attemptPair C dtype ndval start end_ (t1 :: r1) (t2 :: r2) ≠
          Except.ok PairOut.noOverlap ↔
        t1.endtime ≥ t2.starttime - t2.delta) ∧
      attemptPair trivCollab "SAC" FVal.nan ts0 ts10 [trP1] [trP2close] ≠
        Except.ok PairOut.noOverlap ∧
      attemptPair trivCollab "SAC" FVal.nan ts0 ts10 [trP1] [trP2far] =
        Except.ok PairOut.noOverlap := by
  refine ⟨fun C dtype ndval start end_ t1 t2 r1 r2 => ?_, ?_, ?_⟩
  · constructor
    · intro hne
      by_contra hlt
      exact hne (attemptPair_not_then_noOverlap C dtype ndval start end_
        t1 t2 r1 r2 hlt)
    · intro hge
      exact attemptPair_then_ne_noOverlap C dtype ndval start end_ t1 t2 r1 r2 hge
  · exact of_decide_eq_true (by with_unfolding_all rfl)
  · exact of_decide_eq_true (by with_unfolding_all rfl)

/-- Claim C5: on a SAC trace whose `user9` sentinel is neither `0.0` nor
`-12345.0`, the trace the quality check returns on success carries the
data with every sentinel-valued sample replaced by the configured
missing value; and with the default missing value NaN, a trace holding
at least one sentinel-valued sample is rejected by the NaN-contamination
check rather than returned as a success. -/
theorem c5_sentinel_replacement_rejects (tr : Trace)
    (h0 : feq tr.user9 (FVal.num 0) = false)
    (h12 : feq tr.user9 (FVal.num (-12345)) = false) :
    (∀ (ndval : FVal) (tr'' : Trace),
        qualityCheck "SAC" ndval tr = QC.success tr'' →
        tr''.data = tr.data.map (fun x => if feq x tr.user9 then ndval else x)) ∧
      ((∃ x ∈ tr.data, feq x tr.user9 = true) →
        qualityCheck "SAC" FVal.nan tr = QC.skipNaN) := by
  have hrepl : ∀ ndval : FVal, sentinelReplaced "SAC" ndval tr =
      tr.data.map (fun x => if feq x tr.user9 then ndval else x) := by
    intro ndval
    unfold sentinelReplaced
    rw [if_pos ⟨rfl, h0, h12⟩]
  constructor
  · intro ndval tr'' hsucc
    unfold qualityCheck at hsucc
    split at hsucc
    · exact absurd hsucc (by simp)
    · split at hsucc
      · exact absurd hsucc (by simp)
      · rw [← (QC.success.inj hsucc)]
        exact hrepl ndval
  · rintro ⟨x, hx, hfeq⟩
    have hnan : (sentinelReplaced "SAC" FVal.nan tr).any FVal.isnan = true := by
      rw [hrepl FVal.nan]
      refine List.any_eq_true.mpr ⟨FVal.nan, ?_, rfl⟩
      exact List.mem_map.mpr ⟨x, hx, by simp [hfeq]⟩
    unfold qualityCheck
    rw [if_pos hnan]

/-- Witness for C5: the concrete sentinel trace `trC5` (sentinel 7, first
sample 7) satisfies the hypotheses and is rejected as NaN-contaminated. -/
theorem c5_sentinel_witness :
    feq trC5.user9 (FVal.num 0) = false ∧
      feq trC5.user9 (FVal.num (-12345)) = false ∧
      qualityCheck "SAC" FVal.nan trC5 = QC.skipNaN :=
  ⟨of_decide_eq_true (by with_unfolding_all rfl),
   of_decide_eq_true (by with_unfolding_all rfl),
   (c5_sentinel_replacement_rejects trC5
      (of_decide_eq_true (by with_unfolding_all rfl))
      (of_decide_eq_true (by with_unfolding_all rfl))).2
    ⟨FVal.num 7, of_decide_eq_true (by with_unfolding_all rfl),
      of_decide_eq_true (by with_unfolding_all rfl)⟩⟩

/-- Claim C1 (code bug): the remote location loop never advances past the
first location code.  With the same collaborators (no data at "00", a
full ZNE bundle at "10"), the run over the location list `["00", "10"]`
returns the failure pair without ever trying "10", while the run over
`["10"]` alone succeeds — so the data at the second location code was
there to be had and the claimed fallback never happened. -/
theorem c1_remote_location_fallback_never_advances :
    download_data collabC1 staC1 ts0 ts10 [] "SAC" FVal.nan =
        Except.ok (true, none) ∧
      download_data collabC1 staC1b ts0 ts10 [] "SAC" FVal.nan =
        Except.ok (false, some [trBig 10, trBig 10, trBig 10]) :=
  ⟨of_decide_eq_true (by with_unfolding_all rfl),
   of_decide_eq_true (by with_unfolding_all rfl)⟩

/-- Claim C3 (code bug): the single-day alternate-network tiers never
substitute the alternate network code.  The tier-3 pattern the code
builds keeps the `\x7b0:4s\x7d...` placeholders verbatim (first
conjunct); a file archived under the alternate network PO that matches
the spec's Convention-A-with-alternate-network glob (third conjunct) is
matched by no tier, so the cascade comes back empty and
`parse_localdata_for_comp` reports data unavailable (second and fourth
conjuncts). -/
theorem c3_altnet_patterns_never_substituted :
    patBrokenA "BH" "Z" "SAC" =
        "*/\x7b0:4s\x7d.\x7b1:3s\x7d.\x7b2:s\x7d.\x7b3:s\x7d.*.BHZ.SAC" ∧
      singleDayFiles stdataC3 "SAC" staC3 "2020" "001" "Z" = [] ∧
      globMatch (specAltNetPatternA "2020" "001" "PO" "STN" "BH" "Z" "SAC")
          fileC3 = true ∧
      parse_localdata_for_comp trivCollab "Z" stdataC3 "SAC" staC3 ts0 ts10
          FVal.nan = Except.ok (true, none) :=
  ⟨of_decide_eq_true (by with_unfolding_all rfl),
   of_decide_eq_true (by with_unfolding_all rfl),
   of_decide_eq_true (by with_unfolding_all rfl),
   of_decide_eq_true (by with_unfolding_all rfl)⟩

/-- Claim C2 (code bug): in the multi-day branch the success return is
unreachable — line 402 evaluates the unbound `eddt1`/`eddt2`, the
`NameError` is swallowed by the bare `except`, and the pair loop simply
runs out — so whenever the window spans two day labels every returned
status is the failure pair.  The second conjunct runs the spec's own
scenario (contiguous clean day files, merge succeeds, no contamination)
and still gets the failure pair. -/
theorem c2_multiday_merge_never_succeeds :
    (∀ (C : Collab) (comp : String) (stdata : List String) (dtype : String)
        (sta : StaSpec) (start end_ : TimeSpec) (ndval : FVal) (b : Bool)
        (s : Option Stream),
      start.jday ≠ end_.jday →
      parse_localdata_for_comp C comp stdata dtype sta start end_ ndval =
        Except.ok (b, s) → b = true ∧ s = none) ∧
      parse_localdata_for_comp collabC2 "Z" stdataC2 "SAC" staEmpty tsD1 tsD2
        FVal.nan = Except.ok (true, none) :=
  ⟨fun C comp stdata dtype sta start end_ ndval b s hday h =>
     parse_multiday_ok C comp stdata dtype sta start end_ ndval b s hday h,
   of_decide_eq_true (by with_unfolding_all rfl)⟩

lemma finalCheckReturn_ok (sr : ℚ) (start end_ : TimeSpec) (st4 : Stream)
    (r : Bool × Option Stream)
    (h : finalCheckReturn sr start end_ st4 = Except.ok r) :
    (r.1 = true ∧ r.2 = none) ∨
      (r.1 = false ∧ r.2 = some st4 ∧ ∃ u0 rest, st4 = u0 :: rest ∧
        allcloseDefault (rest.map (fun tr => (tr.npts : ℚ))) (u0.npts : ℚ) ∧
        allcloseTarget (u0.npts : ℚ) ((pyInt ((end_.t - start.t) * sr) : ℤ) : ℚ)) := by
  unfold finalCheckReturn at h
  split at h
  · exact absurd h (by simp)
  · rename_i u0 rest
    split at h
    · rw [← Except.ok.inj h]
      exact Or.inl ⟨rfl, rfl⟩
    · split at h
      · rw [← Except.ok.inj h]
        exact Or.inl ⟨rfl, rfl⟩
      · rename_i hc1 hc2
        rw [← Except.ok.inj h]
        exact Or.inr ⟨rfl, rfl, u0, rest, rfl, not_not.mp hc1, not_not.mp hc2⟩

lemma validateRate_ok (C : Collab) (sr : ℚ) (start end_ : TimeSpec)
    (st2 : Stream) (r : Bool × Option Stream)
    (h : validateRate C sr start end_ st2 = Except.ok r) :
    (r.1 = true ∧ r.2 = none) ∨
      (r.1 = false ∧ ∃ u0 rest, r.2 = some (u0 :: rest) ∧
        allcloseDefault (rest.map (fun tr => (tr.npts : ℚ))) (u0.npts : ℚ) ∧
        allcloseTarget (u0.npts : ℚ) ((pyInt ((end_.t - start.t) * sr) : ℤ) : ℚ)) := by
  unfold validateRate at h
  split at h
  · rw [← Except.ok.inj h]
    exact Or.inl ⟨rfl, rfl⟩
  · rename_i st4 htrim
    rcases finalCheckReturn_ok sr start end_ st4 r h with
      h1 | ⟨hb, hs, u0, rest, hst4, hc1, hc2⟩
    · exact Or.inl h1
    · exact Or.inr ⟨hb, u0, rest, by rw [hs, hst4], hc1, hc2⟩

lemma validate_ok (C : Collab) (start end_ : TimeSpec) (st0 : Stream)
    (r : Bool × Option Stream)
    (h : validate C start end_ st0 = Except.ok r) :
    (r.1 = true ∧ r.2 = none) ∨
      (r.1 = false ∧ ∃ u0 rest, r.2 = some (u0 :: rest) ∧
        allcloseDefault (rest.map (fun tr => (tr.npts : ℚ))) (u0.npts : ℚ)) := by
  unfold validate at h
  split at h
  · exact absurd h (by simp)
  · rename_i t0 rest0 heq0
    rcases validateRate_ok C t0.samplingRate start end_ (t0 :: rest0) r h with
      h1 | ⟨hb, u0, rest, hs, hc1, _⟩
    · exact Or.inl h1
    · exact Or.inr ⟨hb, u0, rest, hs, hc1⟩

lemma localStep_ok (C : Collab) (sta : StaSpec) (start end_ : TimeSpec)
    (stdata : List String) (dtype : String) (ndval : FVal)
    (r : Bool × Option (Option Stream))
    (h : localStep C sta start end_ stdata dtype ndval = Except.ok r) :
    (r.1 = true ∧ r.2 = none) ∨
      (r.1 = false ∧ ∃ stm : Stream, r.2 = some (some stm)) := by
  unfold localStep at h
  repeat' split at h
  all_goals try simp_all
  all_goals
    first
      | (rw [← h]; exact Or.inl ⟨rfl, rfl⟩)
      | (rw [← h]; exact Or.inr ⟨rfl, _, rfl⟩)

lemma download_ok_shape (C : Collab) (sta : StaSpec) (start end_ : TimeSpec)
    (stdata : List String) (dtype : String) (ndval : FVal)
    (r : Bool × Option Stream)
    (h : download_data C sta start end_ stdata dtype ndval = Except.ok r) :
    (r.1 = true ∧ r.2 = none) ∨
      (r.1 = false ∧ ∃ u0 rest, r.2 = some (u0 :: rest) ∧
        allcloseDefault (rest.map (fun tr => (tr.npts : ℚ))) (u0.npts : ℚ)) := by
  unfold download_data at h
  split at h
  · exact absurd h (by simp)
  · split at h
    · exact absurd h (by simp)
    · rw [← Except.ok.inj h]
      exact Or.inl ⟨rfl, rfl⟩
    · rename_i st hvar
      exact validate_ok C start end_ st r h

/-- Claim C10: whenever either function returns a pair (rather than
raising), the error flag is `True` exactly when the carried stream is
`None`: every success return carries a stream and every failure return
carries `None`. -/
theorem c10_error_flag_iff_no_stream :
    (∀ (C : Collab) (comp : String) (stdata : List String) (dtype : String)
        (sta : StaSpec) (start end_ : TimeSpec) (ndval : FVal) (b : Bool)
        (s : Option Stream),
      parse_localdata_for_comp C comp stdata dtype sta start end_ ndval =
        Except.ok (b, s) → (b = true ↔ s = none)) ∧
    (∀ (C : Collab) (sta : StaSpec) (start end_ : TimeSpec)
        (stdata : List String) (dtype : String) (ndval : FVal) (b : Bool)
        (s : Option Stream),
      download_data C sta start end_ stdata dtype ndval = Except.ok (b, s) →
        (b = true ↔ s = none)) := by
  constructor
  · intro C comp stdata dtype sta start end_ ndval b s h
    rcases parse_ok_shape C comp stdata dtype sta start end_ ndval b s h with
      ⟨hb, hs⟩ | ⟨hb, stm, hs⟩ <;> subst hb <;> simp [hs]
  · intro C sta start end_ stdata dtype ndval b s h
    rcases download_ok_shape C sta start end_ stdata dtype ndval (b, s) h with
      ⟨hb, hs⟩ | ⟨hb, u0, rest, hs, _⟩ <;>
        simp only at hb hs <;> subst hb <;> simp [hs]

lemma trBig_npts (n : ℕ) : (trBig n).npts = n := by
  simp [trBig, Trace.npts]

lemma trBig_start (n : ℕ) : (trBig n).starttime = 0 := rfl

lemma trBig_sr (n : ℕ) : (trBig n).samplingRate = 1 := rfl

lemma pyInt_C8 : pyInt ((tsC8end.t - ts0.t) * 1) = 100001 := by
  unfold pyInt tsC8end ts0
  have h1 : ((1000019 / 10 : ℚ) - 0) * 1 = 1000019 / 10 := by norm_num
  rw [h1, if_pos (by norm_num)]
  rw [Int.floor_eq_iff]
  norm_num

lemma fcrC8 : finalCheckReturn 1 ts0 tsC8end stC8 = Except.ok (false, some stC8) := by
  have h1 : allcloseDefault
      ([trBig 100001, trBig 100001].map (fun tr => ((tr.npts : ℚ))))
      (((trBig 100000).npts : ℚ)) := by
    simp only [allcloseDefault, List.map_cons, List.map_nil, trBig_npts]
    intro x hx
    simp only [List.mem_cons, List.not_mem_nil, or_false] at hx
    rcases hx with rfl | rfl <;> norm_num
  have h2 : allcloseTarget (((trBig 100000).npts : ℚ))
      (((pyInt ((tsC8end.t - ts0.t) * 1) : ℤ) : ℚ)) := by
    rw [pyInt_C8]
    simp only [allcloseTarget, trBig_npts]
    norm_num
  show (if ¬ allcloseDefault
      ([trBig 100001, trBig 100001].map (fun tr => ((tr.npts : ℚ))))
      (((trBig 100000).npts : ℚ)) then Except.ok (true, none)
    else if ¬ allcloseTarget (((trBig 100000).npts : ℚ))
        (((pyInt ((tsC8end.t - ts0.t) * 1) : ℤ) : ℚ)) then
      Except.ok (true, none)
    else Except.ok (false, some stC8)) = Except.ok (false, some stC8)
  rw [if_neg (not_not_intro h1), if_neg (not_not_intro h2)]

lemma vrC8 : validateRate collabC8 1 ts0 tsC8end stC8 = Except.ok (false, some stC8) := by
  unfold validateRate
  rw [if_neg (by norm_num)]
  show (match trivCollab.trimFn ts0.t tsC8end.t stC8 with
    | Except.error _ => Except.ok (true, none)
    | Except.ok st4 => finalCheckReturn 1 ts0 tsC8end st4) = _
  exact fcrC8

lemma vC8 : validate collabC8 ts0 tsC8end stC8 = Except.ok (false, some stC8) := by
  unfold validate
  have halign : alignStep collabC8 ts0.t (collabC8.detrendTaper stC8) = stC8 := by
    have hdt : collabC8.detrendTaper stC8 = stC8 := rfl
    rw [hdt]
    unfold alignStep
    rw [if_pos]
    show (List.all [trBig 100000, trBig 100001, trBig 100001]
      (fun tr => tr.starttime == ts0.t)) = true
    simp only [List.all_cons, List.all_nil, trBig_start]
    show (((0:ℚ) == 0) && (((0:ℚ) == 0) && (((0:ℚ) == 0) && true))) = true
    simp
  rw [halign]
  show validateRate collabC8 (trBig 100000).samplingRate ts0 tsC8end stC8 = _
  rw [trBig_sr]
  exact vrC8

lemma dlC8 : download_data collabC8 staC1b ts0 tsC8end [] "SAC" FVal.nan =
    Except.ok (false, some stC8) := by
  unfold download_data
  have hls : localStep collabC8 staC1b ts0 tsC8end [] "SAC" FVal.nan =
      Except.ok (true, none) := rfl
  rw [hls]
  have hrl : remoteLoop collabC8 staC1b false staC1b.location none =
      some (some stC8) := by
    show remoteLoop collabC8 staC1b false ["10"] none = some (some stC8)
    unfold remoteLoop attemptLoc
    simp [collabC8, stC8]
  show (match remoteLoop collabC8 staC1b false staC1b.location none with
    | none => Except.error PyErr.nameError
    | some none => Except.ok (true, none)
    | some (some st) => validate collabC8 ts0 tsC8end st) = _
  rw [hrl]
  exact vC8

/-- Counterexample for C8: a run of `download_data` that returns the
success pair with a bundle whose three sample counts are 100000, 100001
and 100001 — not identical — and whose first count differs from
`round((end - start) * rate)` (= 100002 at rate 1) by two samples.  The
default-tolerance `np.allclose` checks (absolute `1e-8`/`1` plus relative
`1e-5`) accept it because at counts of this size the relative term
admits a discrepancy of 2, and the code truncates the length target with
`int(...)` instead of rounding. -/
theorem c8_length_check_counterexample :
    download_data collabC8 staC1b ts0 tsC8end [] "SAC" FVal.nan =
        Except.ok (false, some stC8) ∧
      stC8.map Trace.npts = [100000, 100001, 100001] ∧
      round ((tsC8end.t - ts0.t) * (trBig 100000).samplingRate) = (100002 : ℤ) ∧
      ¬ ∃ n : ℕ, (∀ tr ∈ stC8, tr.npts = n) ∧
        ((n : ℤ) - round ((tsC8end.t - ts0.t) *
          (trBig 100000).samplingRate)).natAbs ≤ 1 := by
  have hround : round ((tsC8end.t - ts0.t) * (trBig 100000).samplingRate) =
      (100002 : ℤ) := by
    rw [trBig_sr]
    have h1 : ((tsC8end.t - ts0.t) * 1 : ℚ) = 1000019 / 10 := by
      unfold tsC8end ts0
      norm_num
    rw [h1, round_eq, Int.floor_eq_iff]
    norm_num
  refine ⟨dlC8, by simp [stC8, trBig_npts], hround, ?_⟩
  rintro ⟨n, hall, habs⟩
  have h1 : (trBig 100000).npts = n := hall (trBig 100000) (by simp [stC8])
  have h2 : (trBig 100001).npts = n := hall (trBig 100001) (by simp [stC8])
  rw [trBig_npts] at h1 h2
  omega

/-- Claim C8 amended: an accepted bundle's channel sample counts agree
with the first channel's count within numpy's default `allclose`
tolerances (absolute `1e-8` plus `1e-5` of the first count) rather than
exactly; and the validation step accepts a bundle only when the first
count is within `1 + 1e-5 * |T|` samples of `T = int((end - start) * sr)`
— Python truncation, not rounding — where `sr` is the sampling rate read
from the stream before the resampling step. -/
theorem c8_accepted_bundle_tolerances :
    (∀ (C : Collab) (sta : StaSpec) (start end_ : TimeSpec)
        (stdata : List String) (dtype : String) (ndval : FVal) (st : Stream),
      download_data C sta start end_ stdata dtype ndval =
          Except.ok (false, some st) →
        ∃ u0 rest, st = u0 :: rest ∧
          ∀ tr ∈ rest, |(tr.npts : ℚ) - (u0.npts : ℚ)| ≤
            1 / 100000000 + |(u0.npts : ℚ)| / 100000) ∧
    (∀ (C : Collab) (sr : ℚ) (start end_ : TimeSpec) (st2 st : Stream),
      validateRate C sr start end_ st2 = Except.ok (false, some st) →
        ∃ u0 rest, st = u0 :: rest ∧
          (∀ tr ∈ rest, |(tr.npts : ℚ) - (u0.npts : ℚ)| ≤
            1 / 100000000 + |(u0.npts : ℚ)| / 100000) ∧
          |(u0.npts : ℚ) - ((pyInt ((end_.t - start.t) * sr) : ℤ) : ℚ)| ≤
            1 + |((pyInt ((end_.t - start.t) * sr) : ℤ) : ℚ)| / 100000) := by
  constructor
  · intro C sta start end_ stdata dtype ndval st h
    rcases download_ok_shape C sta start end_ stdata dtype ndval
        (false, some st) h with ⟨hb, _⟩ | ⟨_, u0, rest, hs, hc1⟩
    · exact absurd hb (by simp)
    · simp only at hs
      refine ⟨u0, rest, Option.some.inj hs, fun tr htr => ?_⟩
      exact hc1 (tr.npts : ℚ) (List.mem_map.mpr ⟨tr, htr, rfl⟩)
  · intro C sr start end_ st2 st h
    rcases validateRate_ok C sr start end_ st2 (false, some st) h with
      ⟨hb, _⟩ | ⟨_, u0, rest, hs, hc1, hc2⟩
    · exact absurd hb (by simp)
    · simp only at hs
      refine ⟨u0, rest, Option.some.inj hs, fun tr htr => ?_, hc2⟩
      exact hc1 (tr.npts : ℚ) (List.mem_map.mpr ⟨tr, htr, rfl⟩)

lemma ec_add (n : ℕ) (a b : ℤ) : ec n (a + b) = ec n a * ec n b := by
  unfold ec
  rw [← Complex.exp_add]
  congr 1
  push_cast
  ring

lemma ec_zero (n : ℕ) : ec n 0 = 1 := by
  unfold ec
  norm_num [Complex.exp_zero]

lemma ec_n_dvd (n : ℕ) (d : ℤ) (h : (n : ℤ) ∣ d) : ec n d = 1 := by
  rcases Nat.eq_zero_or_pos n with hn | hn
  · subst hn
    unfold ec
    norm_num [Complex.exp_zero]
  · obtain ⟨k, rfl⟩ := h
    unfold ec
    rw [show (((2 * Real.pi * (((n : ℤ) * k : ℤ) : ℝ) / (n : ℝ) : ℝ)) : ℂ) * Complex.I =
      (k : ℂ) * (2 * (Real.pi : ℂ) * Complex.I) from ?_]
    · exact Complex.exp_int_mul_two_pi_mul_I k
    · have hne : (n : ℂ) ≠ 0 := Nat.cast_ne_zero.mpr hn.ne'
      push_cast
      field_simp
      ring

lemma ec_congr (n : ℕ) (a b : ℤ) (h : (n : ℤ) ∣ (a - b)) : ec n a = ec n b := by
  have hab : a = b + (a - b) := by ring
  rw [hab, ec_add, ec_n_dvd n _ h, mul_one]

lemma ec_nat_mul (n j : ℕ) (d : ℤ) : ec n ((j : ℤ) * d) = ec n d ^ j := by
  unfold ec
  rw [← Complex.exp_nat_mul]
  congr 1
  push_cast
  ring

lemma ec_ne_one (n : ℕ) (hn : 0 < n) (d : ℤ) (hnd : ¬ (n : ℤ) ∣ d) : ec n d ≠ 1 := by
  intro h
  unfold ec at h
  rw [Complex.exp_eq_one_iff] at h
  obtain ⟨k, hk⟩ := h
  have hne : (n : ℝ) ≠ 0 := Nat.cast_ne_zero.mpr hn.ne'
  have him := congrArg Complex.im hk
  simp [Complex.mul_im, Complex.mul_re] at him
  field_simp at him
  have hd : (d : ℝ) = (k : ℝ) * (n : ℝ) := by
    have h2pi : (2 * Real.pi) ≠ 0 := mul_ne_zero two_ne_zero Real.pi_ne_zero
    apply mul_left_cancel₀ h2pi
    linear_combination him
  have hdint : d = k * n := by exact_mod_cast hd
  exact hnd ⟨k, by rw [hdint, mul_comm]⟩

lemma sum_ec (n : ℕ) (hn : 0 < n) (d : ℤ) :
    ∑ j ∈ Finset.range n, ec n ((j : ℤ) * d) = if (n : ℤ) ∣ d then (n : ℂ) else 0 := by
  by_cases hd : (n : ℤ) ∣ d
  · rw [if_pos hd]
    have hterm : ∀ j ∈ Finset.range n, ec n ((j : ℤ) * d) = 1 :=
      fun j _ => ec_n_dvd n _ (hd.mul_left _)
    rw [Finset.sum_congr rfl hterm]
    simp
  · rw [if_neg hd]
    have hterm : ∀ j ∈ Finset.range n, ec n ((j : ℤ) * d) = ec n d ^ j :=
      fun j _ => ec_nat_mul n j d
    rw [Finset.sum_congr rfl hterm]
    rw [geom_sum_eq (ec_ne_one n hn d hd) n]
    rw [← ec_nat_mul n n d, ec_n_dvd n ((n : ℤ) * d) ⟨d, rfl⟩]
    simp

lemma idft_dft (n : ℕ) (hn : 0 < n) (x : ℕ → ℂ) (j : ℕ) (hj : j < n) :
    idft n (dft n x) j = x j := by
  unfold idft dft
  have hne : (n : ℂ) ≠ 0 := Nat.cast_ne_zero.mpr hn.ne'
  have step1 : ∀ k ∈ Finset.range n,
      (∑ m ∈ Finset.range n, x m * ec n (-((m : ℤ) * (k : ℤ)))) * ec n ((j : ℤ) * (k : ℤ)) =
      ∑ m ∈ Finset.range n, x m * ec n ((k : ℤ) * ((j : ℤ) - (m : ℤ))) := by
    intro k _
    rw [Finset.sum_mul]
    refine Finset.sum_congr rfl fun m _ => ?_
    rw [mul_assoc, ← ec_add]
    congr 1
    ring
  rw [Finset.sum_congr rfl step1, Finset.sum_comm]
  have step2 : ∀ m ∈ Finset.range n,
      ∑ k ∈ Finset.range n, x m * ec n ((k : ℤ) * ((j : ℤ) - (m : ℤ))) =
      x m * (if (n : ℤ) ∣ ((j : ℤ) - (m : ℤ)) then (n : ℂ) else 0) := by
    intro m _
    rw [← Finset.mul_sum, sum_ec n hn]
  rw [Finset.sum_congr rfl step2]
  rw [Finset.sum_eq_single j]
  · rw [if_pos (by simp)]
    field_simp
  · intro m hm hne2
    have hmb : m < n := Finset.mem_range.mp hm
    rw [if_neg, mul_zero]
    intro hdvd
    have hz : (j : ℤ) - (m : ℤ) = 0 :=
      Int.eq_zero_of_abs_lt_dvd hdvd (by rw [abs_lt]; omega)
    exact hne2 (by omega)
  · intro hj2
    exact absurd (Finset.mem_range.mpr hj) hj2

lemma dft_idft (n : ℕ) (hn : 0 < n) (X : ℕ → ℂ) (k : ℕ) (hk : k < n) :
    dft n (idft n X) k = X k := by
  unfold dft idft
  have hne : (n : ℂ) ≠ 0 := Nat.cast_ne_zero.mpr hn.ne'
  have step1 : ∀ j ∈ Finset.range n,
      (∑ l ∈ Finset.range n, X l * ec n ((j : ℤ) * (l : ℤ))) / (n : ℂ) *
          ec n (-((j : ℤ) * (k : ℤ))) =
      (∑ l ∈ Finset.range n, X l * ec n ((j : ℤ) * ((l : ℤ) - (k : ℤ)))) / (n : ℂ) := by
    intro j _
    rw [div_mul_eq_mul_div, Finset.sum_mul]
    congr 1
    refine Finset.sum_congr rfl fun l _ => ?_
    rw [mul_assoc, ← ec_add]
    congr 1
    ring
  rw [Finset.sum_congr rfl step1, ← Finset.sum_div, Finset.sum_comm]
  have step2 : ∀ l ∈ Finset.range n,
      ∑ j ∈ Finset.range n, X l * ec n ((j : ℤ) * ((l : ℤ) - (k : ℤ))) =
      X l * (if (n : ℤ) ∣ ((l : ℤ) - (k : ℤ)) then (n : ℂ) else 0) := by
    intro l _
    rw [← Finset.mul_sum, sum_ec n hn]
  rw [Finset.sum_congr rfl step2]
  rw [Finset.sum_eq_single k]
  · rw [if_pos (by simp)]
    field_simp
  · intro l hl hne2
    have hlb : l < n := Finset.mem_range.mp hl
    rw [if_neg, mul_zero]
    intro hdvd
    have hz : (l : ℤ) - (k : ℤ) = 0 :=
      Int.eq_zero_of_abs_lt_dvd hdvd (by rw [abs_lt]; omega)
    exact hne2 (by omega)
  · intro hk2
    exact absurd (Finset.mem_range.mpr hk) hk2

lemma conj_ec (n : ℕ) (d : ℤ) :
    (starRingEnd ℂ) (ec n d) = ec n (-d) := by
  unfold ec
  rw [← Complex.exp_conj]
  congr 1
  rw [map_mul, Complex.conj_ofReal, Complex.conj_I]
  push_cast
  ring

lemma phase_cancel (n : ℕ) (dt t : ℝ) (i : ℕ) :
    phase n dt t i * phase n dt (-t) i = 1 := by
  unfold phase
  rw [← Complex.exp_add, ← Complex.exp_zero]
  congr 1
  push_cast
  ring

lemma freqIdx_neg (n i : ℕ) (hodd : Odd n) (hi : i < n) :
    freqIdx n ((n - i) % n) = - freqIdx n i := by
  have hn : 0 < n := hodd.pos
  have h2 : n % 2 = 1 := Nat.odd_iff.mp hodd
  rcases Nat.eq_zero_or_pos i with rfl | hip
  · unfold freqIdx
    rw [Nat.sub_zero, Nat.mod_self]
    rw [if_pos (by omega)]
    simp
  · have hsub : (n - i) % n = n - i := Nat.mod_eq_of_lt (by omega)
    rw [hsub]
    unfold freqIdx
    rcases lt_or_ge (2 * i) n with hlt | hge
    · rw [if_neg (by omega), if_pos hlt]
      omega
    · rw [if_pos (by omega), if_neg (by omega)]
      omega

lemma sigma_invol (n k : ℕ) (_hn : 0 < n) (hk : k < n) :
    (n - ((n - k) % n)) % n = k := by
  rcases Nat.eq_zero_or_pos k with rfl | hkp
  · rw [Nat.sub_zero, Nat.mod_self, Nat.sub_zero, Nat.mod_self]
  · have h1 : (n - k) % n = n - k := Nat.mod_eq_of_lt (by omega)
    rw [h1]
    have h2 : n - (n - k) = k := by omega
    rw [h2, Nat.mod_eq_of_lt hk]

lemma conj_phase (n : ℕ) (hodd : Odd n) (dt t : ℝ) (i : ℕ) (hi : i < n) :
    (starRingEnd ℂ) (phase n dt t i) = phase n dt t ((n - i) % n) := by
  unfold phase freqVal
  rw [← Complex.exp_conj]
  congr 1
  rw [map_mul, Complex.conj_ofReal, Complex.conj_I, freqIdx_neg n i hodd hi]
  push_cast
  ring

lemma conj_dft_real (n : ℕ) (x : ℕ → ℝ) (k : ℕ) (hk : k < n) :
    (starRingEnd ℂ) (dft n (fun m => ((x m : ℝ) : ℂ)) k) =
      dft n (fun m => ((x m : ℝ) : ℂ)) ((n - k) % n) := by
  unfold dft
  rw [map_sum]
  refine Finset.sum_congr rfl fun m hm => ?_
  rw [map_mul, Complex.conj_ofReal, conj_ec]
  congr 1
  apply ec_congr
  have key : (n : ℤ) ∣ ((m : ℤ) * (k : ℤ) + (m : ℤ) * (((n - k) % n : ℕ) : ℤ)) := by
    rcases Nat.eq_zero_or_pos k with rfl | hkp
    · simp [Nat.mod_self]
    · have hlt : n - k < n := by omega
      rw [Nat.mod_eq_of_lt hlt]
      refine ⟨m, ?_⟩
      push_cast [Nat.cast_sub hk.le]
      ring
  obtain ⟨c, hc⟩ := key
  exact ⟨c, by push_cast at hc ⊢; linarith⟩

lemma idft_phase_real (n : ℕ) (hodd : Odd n) (x : ℕ → ℝ) (dt t : ℝ) (m : ℕ) :
    (starRingEnd ℂ)
        (idft n (fun i => dft n (fun j => ((x j : ℝ) : ℂ)) i * phase n dt t i) m) =
      idft n (fun i => dft n (fun j => ((x j : ℝ) : ℂ)) i * phase n dt t i) m := by
  have hn : 0 < n := hodd.pos
  unfold idft
  rw [map_div₀, map_sum, map_natCast]
  congr 1
  refine Finset.sum_nbij' (fun k => (n - k) % n) (fun k => (n - k) % n)
    ?_ ?_ ?_ ?_ ?_
  · intro k _
    exact Finset.mem_range.mpr (Nat.mod_lt _ hn)
  · intro k _
    exact Finset.mem_range.mpr (Nat.mod_lt _ hn)
  · intro k hkmem
    exact sigma_invol n k hn (Finset.mem_range.mp hkmem)
  · intro k hkmem
    exact sigma_invol n k hn (Finset.mem_range.mp hkmem)
  · intro k hkmem
    have hk : k < n := Finset.mem_range.mp hkmem
    rw [map_mul, map_mul, conj_dft_real n x k hk, conj_phase n hodd dt t k hk, conj_ec]
    congr 1
    apply ec_congr
    have key : (n : ℤ) ∣ ((m : ℤ) * (k : ℤ) + (m : ℤ) * (((n - k) % n : ℕ) : ℤ)) := by
      rcases Nat.eq_zero_or_pos k with rfl | hkp
      · simp [Nat.mod_self]
      · have hlt : n - k < n := by omega
        rw [Nat.mod_eq_of_lt hlt]
        refine ⟨m, ?_⟩
        push_cast [Nat.cast_sub hk.le]
        ring
    obtain ⟨c, hc⟩ := key
    exact ⟨-c, by push_cast at hc ⊢; linarith⟩

lemma getD_range_map (n : ℕ) (f : ℕ → ℝ) (m : ℕ) :
    ((List.range n).map f).getD m 0 = if m < n then f m else 0 := by
  by_cases hm : m < n
  · rw [if_pos hm]
    have hl : m < ((List.range n).map f).length := by simpa using hm
    rw [List.getD_eq_getElem _ 0 hl]
    simp
  · rw [if_neg hm]
    exact List.getD_eq_default _ 0 (by simpa using not_lt.mp hm)

lemma dft_congr (n : ℕ) (f g : ℕ → ℂ) (h : ∀ m, m < n → f m = g m) (k : ℕ) :
    dft n f k = dft n g k := by
  unfold dft
  exact Finset.sum_congr rfl fun m hm => by
    rw [h m (Finset.mem_range.mp hm)]

lemma idft_congr (n : ℕ) (F G : ℕ → ℂ) (h : ∀ k, k < n → F k = G k) (j : ℕ) :
    idft n F j = idft n G j := by
  unfold idft
  congr 1
  exact Finset.sum_congr rfl fun k hk => by
    rw [h k (Finset.mem_range.mp hk)]

lemma roundtrip_fun (n : ℕ) (hodd : Odd n) (x : ℕ → ℝ) (dt t : ℝ) (j : ℕ)
    (hj : j < n) :
    (idft n (fun i =>
        dft n (fun m => (((if m < n then
            (idft n (fun i' => dft n (fun m' => ((x m' : ℝ) : ℂ)) i' *
              phase n dt t i') m).re
          else 0) : ℝ) : ℂ)) i *
        phase n dt (-t) i) j).re = x j := by
  have hn : 0 < n := hodd.pos
  have hstep1 : ∀ k, k < n →
      dft n (fun m => (((if m < n then
          (idft n (fun i' => dft n (fun m' => ((x m' : ℝ) : ℂ)) i' *
            phase n dt t i') m).re
        else 0) : ℝ) : ℂ)) k =
      dft n (fun m' => ((x m' : ℝ) : ℂ)) k * phase n dt t k := by
    intro k hk
    have heq := dft_congr n
      (fun m => (((if m < n then
          (idft n (fun i' => dft n (fun m' => ((x m' : ℝ) : ℂ)) i' *
            phase n dt t i') m).re
        else 0) : ℝ) : ℂ))
      (fun m => idft n (fun i' => dft n (fun m' => ((x m' : ℝ) : ℂ)) i' *
        phase n dt t i') m)
      (fun m hmn => by
        beta_reduce
        rw [if_pos hmn]
        exact Complex.conj_eq_iff_re.mp (idft_phase_real n hodd x dt t m)) k
    rw [heq, dft_idft n hn _ k hk]
  have hstep2 : idft n (fun i =>
      dft n (fun m => (((if m < n then
          (idft n (fun i' => dft n (fun m' => ((x m' : ℝ) : ℂ)) i' *
            phase n dt t i') m).re
        else 0) : ℝ) : ℂ)) i *
      phase n dt (-t) i) j =
      idft n (dft n (fun m' => ((x m' : ℝ) : ℂ))) j := by
    refine idft_congr n _ _ (fun k hk => ?_) j
    rw [hstep1 k hk, mul_assoc, phase_cancel, mul_one]
  rw [hstep2, idft_dft n hn _ j hj]
  exact Complex.ofReal_re (x j)

lemma dft_two (x : ℕ → ℂ) (k : ℕ) :
    dft 2 x k = x 0 + x 1 * ec 2 (-(k : ℤ)) := by
  unfold dft
  rw [Finset.sum_range_succ, Finset.sum_range_succ, Finset.sum_range_zero]
  rw [show (-(((0 : ℕ) : ℤ) * (k : ℤ))) = 0 by norm_num,
    show (-(((1 : ℕ) : ℤ) * (k : ℤ))) = -(k : ℤ) by norm_num, ec_zero]
  ring

lemma idft_two (Y : ℕ → ℂ) (j : ℕ) :
    idft 2 Y j = (Y 0 + Y 1 * ec 2 (j : ℤ)) / 2 := by
  unfold idft
  rw [Finset.sum_range_succ, Finset.sum_range_succ, Finset.sum_range_zero]
  rw [show ((j : ℤ) * ((0 : ℕ) : ℤ)) = 0 by norm_num,
    show ((j : ℤ) * ((1 : ℕ) : ℤ)) = (j : ℤ) by norm_num, ec_zero]
  norm_num

lemma ec_two_neg_one : ec 2 (-1) = -1 := by
  unfold ec
  have harg : ((2 * Real.pi * ((-1 : ℤ) : ℝ) / ((2 : ℕ) : ℝ) : ℝ) : ℂ) * Complex.I =
      -((Real.pi : ℂ) * Complex.I) := by push_cast; ring
  rw [harg, Complex.exp_neg, Complex.exp_pi_mul_I]
  norm_num

lemma ec_two_one : ec 2 1 = -1 := by
  unfold ec
  have harg : ((2 * Real.pi * ((1 : ℤ) : ℝ) / ((2 : ℕ) : ℝ) : ℝ) : ℂ) * Complex.I =
      (Real.pi : ℂ) * Complex.I := by push_cast; ring
  rw [harg]
  exact Complex.exp_pi_mul_I

lemma dftX_zero : dft 2 (fun m => ((trX2.data.getD m 0 : ℝ) : ℂ)) 0 = 0 := by
  rw [dft_two]
  rw [show (-((0 : ℕ) : ℤ)) = 0 by norm_num, ec_zero]
  simp [trX2]

lemma dftX_one : dft 2 (fun m => ((trX2.data.getD m 0 : ℝ) : ℂ)) 1 = 2 := by
  rw [dft_two]
  rw [show (-((1 : ℕ) : ℤ)) = -1 by norm_num, ec_two_neg_one]
  simp [trX2]
  norm_num

lemma freqValX : freqVal 2 1 1 = -(1 / 2 : ℝ) := by
  unfold freqVal freqIdx
  rw [if_neg (by omega)]
  norm_num

lemma phaseX_one : phase 2 1 (1 / 2) 1 = Complex.I := by
  unfold phase
  rw [freqValX]
  have harg : ((-(2 * Real.pi * (-(1 / 2 : ℝ)) * (1 / 2)) : ℝ) : ℂ) * Complex.I =
      ((Real.pi / 2 : ℝ) : ℂ) * Complex.I := by
    push_cast
    ring
  rw [harg, Complex.exp_mul_I, ← Complex.ofReal_cos, ← Complex.ofReal_sin,
    Real.cos_pi_div_two, Real.sin_pi_div_two]
  norm_num

lemma firstX_data : (traceshift trX2 (1 / 2)).data = [0, 0] := by
  have h : (traceshift trX2 (1 / 2)).data =
      (List.range 2).map (fun j =>
        (idft 2 (fun i =>
          dft 2 (fun m => ((trX2.data.getD m 0 : ℝ) : ℂ)) i *
          phase 2 1 (1 / 2) i) j).re) := rfl
  rw [h, show List.range 2 = [0, 1] from rfl]
  simp only [List.map_cons, List.map_nil, idft_two]
  simp only [dftX_zero, dftX_one, phaseX_one, zero_mul]
  rw [show (((0 : ℕ) : ℤ)) = 0 by norm_num, show (((1 : ℕ) : ℤ)) = 1 by norm_num,
    ec_zero, ec_two_one]
  have h0 : (((0 : ℂ) + 2 * Complex.I * 1) / 2) = Complex.I := by ring
  have h1 : (((0 : ℂ) + 2 * Complex.I * -1) / 2) = -Complex.I := by ring
  rw [h0, h1]
  simp

/-- Claim C6 amended: for every real series of odd length and every delay,
shifting with `traceshift` and then shifting the result by the negated
delay recovers the original samples exactly (in exact arithmetic): for odd
lengths the spectrum of a real series stays conjugate-symmetric under the
per-bin phase factors, so taking the real part after the first shift
loses nothing, and the two phase multiplications cancel. -/
theorem c6_roundtrip_odd_length (tr : RTrace) (tt : ℝ)
    (hodd : Odd tr.data.length) :
    (traceshift (traceshift tr tt) (-tt)).data = tr.data := by
  have hfd : (traceshift tr tt).data =
      (List.range tr.data.length).map (fun j =>
        (idft tr.data.length (fun i =>
          dft tr.data.length (fun m => ((tr.data.getD m 0 : ℝ) : ℂ)) i *
          phase tr.data.length tr.delta tt i) j).re) := rfl
  have hlen1 : (traceshift tr tt).data.length = tr.data.length := by
    rw [hfd]; simp
  have hdelta1 : (traceshift tr tt).delta = tr.delta := rfl
  have hsd : (traceshift (traceshift tr tt) (-tt)).data =
      (List.range (traceshift tr tt).data.length).map (fun j =>
        (idft (traceshift tr tt).data.length (fun i =>
          dft (traceshift tr tt).data.length
            (fun m => (((traceshift tr tt).data.getD m 0 : ℝ) : ℂ)) i *
          phase (traceshift tr tt).data.length (traceshift tr tt).delta
            (-tt) i) j).re) := rfl
  rw [hsd, hlen1, hdelta1, hfd]
  apply List.ext_getElem
  · simp
  · intro i h1 h2
    simp only [List.getElem_map, List.getElem_range, getD_range_map]
    have hi : i < tr.data.length := by simpa using h2
    have hmain := roundtrip_fun tr.data.length hodd
      (fun m => tr.data.getD m 0) tr.delta tt i hi
    exact hmain.trans (List.getD_eq_getElem tr.data 0 h2)

lemma secondX_zero :
    ∀ y ∈ (traceshift (traceshift trX2 (1 / 2)) (-(1 / 2))).data, y = 0 := by
  intro y hy
  have hsd : (traceshift (traceshift trX2 (1 / 2)) (-(1 / 2))).data =
      (List.range (traceshift trX2 (1 / 2)).data.length).map (fun j =>
        (idft (traceshift trX2 (1 / 2)).data.length (fun i =>
          dft (traceshift trX2 (1 / 2)).data.length
            (fun m => (((traceshift trX2 (1 / 2)).data.getD m 0 : ℝ) : ℂ)) i *
          phase (traceshift trX2 (1 / 2)).data.length
            (traceshift trX2 (1 / 2)).delta (-(1 / 2)) i) j).re) := rfl
  rw [hsd] at hy
  simp only [firstX_data] at hy
  obtain ⟨j, hj, rfl⟩ := List.mem_map.mp hy
  have hx0 : (fun m => ((([0, 0] : List ℝ).getD m 0 : ℝ) : ℂ)) =
      fun _ => (0 : ℂ) := by
    funext m
    rcases m with _ | _ | m <;> simp
  rw [hx0]
  have hdz : ∀ i, dft ([0, 0] : List ℝ).length (fun _ => (0 : ℂ)) i = 0 := by
    intro i
    unfold dft
    simp
  simp only [hdz, zero_mul]
  unfold idft
  simp

/-- Counterexample for C6: the two-sample series `[1, -1]` (sample
interval 1) shifted forward by half a sample and then back comes out as
`[0, 0]` — the original data is not recovered within any tolerance.
With an even sample count the Nyquist bin's phase factor breaks the
conjugate symmetry of the spectrum, and the real part taken after the
first shift discards the whole signal here. -/
theorem c6_roundtrip_counterexample :
    (traceshift (traceshift trX2 (1 / 2)) (-(1 / 2))).data = [0, 0] ∧
      trX2.data = [1, -1] ∧ ([0, 0] : List ℝ) ≠ [1, -1] := by
  refine ⟨?_, rfl, by intro h; injection h with h1 _; norm_num at h1⟩
  have hlen : (traceshift (traceshift trX2 (1 / 2)) (-(1 / 2))).data.length = 2 := by
    simp [traceshift, firstX_data, trX2]
  have hz := secondX_zero
  rcases hl : (traceshift (traceshift trX2 (1 / 2)) (-(1 / 2))).data with
    _ | ⟨a, _ | ⟨b, rest⟩⟩
  · rw [hl] at hlen
    simp at hlen
  · rw [hl] at hlen
    simp at hlen
  · rw [hl] at hlen
    simp at hlen
    have ha : a = 0 := hz a (by rw [hl]; simp)
    have hb : b = 0 := hz b (by rw [hl]; simp)
    rw [ha, hb, hlen]

/-- Witness for the amended C6 round trip: the odd-length series `[1]`
with delay one half recovers its data exactly. -/
theorem c6_roundtrip_witness :
    Odd trX1.data.length ∧
      (traceshift (traceshift trX1 (1 / 2)) (-(1 / 2))).data = trX1.data :=
  ⟨by simp [trX1], c6_roundtrip_odd_length trX1 (1 / 2) (by simp [trX1])⟩

end RfPy
